import Mathlib

/-
Shallow embedding of the zyfi-rs crate (NodleCode/zyfi-rs): a small HTTP
client for the ZyFi sponsorship/paymaster API.  The sources embedded here
are src/lib.rs, src/in_types.rs and src/out_types.rs.  JSON values are
modelled by an explicit inductive type; serde's derived Serialize and
Deserialize implementations (with their rename attributes and
skip_serializing_if markers) are embedded as explicit encode and decode
functions on that type.
-/

/-- JSON values as handled by serde_json.  Numbers are modelled as
integers: every numeric field of this crate's request and response types
is an unsigned machine integer (u8, u32, u64); all monetary and gas
quantities travel as JSON strings.  The model's parser rejects
non-integer numerals (see parseLoop); no field of the schema carries
one, and a non-integer in a numeric position makes serde's decoding fail
just as a parse failure does. -/
inductive Json where
  | null
  | bool (b : Bool)
  | num (n : Int)
  | str (s : String)
  | arr (elems : List Json)
  | obj (fields : List (String × Json))

/-- Look a key up among an object's fields (first occurrence, as
serde_json does for the keys this model ever sees). -/
def Json.getField (j : Json) (k : String) : Option Json :=
  match j with
  | .obj fields => (fields.find? (fun p => p.fst == k)).map Prod.snd
  | _ => none

/-- Key list of an object; other values have no keys. -/
def Json.keys (j : Json) : List String :=
  match j with
  | .obj fields => fields.map Prod.fst
  | _ => []

namespace in_types

/-- src/in_types.rs, TxData (request side): the three caller-supplied
transaction fields.  Rust field `from` is a Lean keyword and is rendered
`from_`; it still serializes under the key "from". -/
structure TxData where
  from_ : String
  to_ : String
  data : String

/-- serde Serialize for in_types::TxData: no rename attribute, so field
names are emitted as written in the source. -/
def TxData.toJson (t : TxData) : Json :=
  .obj [("from", .str t.from_), ("to", .str t.to_), ("data", .str t.data)]

/-- src/in_types.rs, Request: the outbound payload.  chain_id is u32 and
sponsorship_ratio / replay_limit are u8 in the source; modelled as Nat
(no arithmetic is ever performed on them). -/
structure Request where
  chain_id : Nat
  fee_token_address : Option String
  sponsorship_ratio : Option Nat
  replay_limit : Option Nat
  tx_data : TxData
  is_testnet : Bool

/-- Rust's derived Default for in_types::Request: zero, None, None,
None, empty strings, false. -/
def Request.default : Request :=
  { chain_id := 0
    fee_token_address := none
    sponsorship_ratio := none
    replay_limit := none
    tx_data := { from_ := "", to_ := "", data := "" }
    is_testnet := false }

/-- serde Serialize for in_types::Request: rename_all = "camelCase", and
the three Option fields carry skip_serializing_if = "Option::is_none",
so an unset optional field is omitted from the object entirely. -/
def Request.toJson (r : Request) : Json :=
  .obj
    ([("chainId", .num (Int.ofNat r.chain_id))]
      ++ (match r.fee_token_address with
          | none => []
          | some a => [("feeTokenAddress", .str a)])
      ++ (match r.sponsorship_ratio with
          | none => []
          | some n => [("sponsorshipRatio", .num (Int.ofNat n))])
      ++ (match r.replay_limit with
          | none => []
          | some n => [("replayLimit", .num (Int.ofNat n))])
      ++ [("txData", r.tx_data.toJson), ("isTestnet", .bool r.is_testnet)])

end in_types

namespace out_types

/-- src/out_types.rs, PaymasterParams. -/
structure PaymasterParams where
  paymaster : String
  paymaster_input : String

/-- src/out_types.rs, CustomData.  gas_per_pubdata is u64 in the source. -/
structure CustomData where
  paymaster_params : PaymasterParams
  gas_per_pubdata : Nat

/-- src/out_types.rs, TxData (response side).  chain_id is u32 and
gas_limit is u64 in the source. -/
structure TxData where
  chain_id : Nat
  from_ : String
  to_ : String
  data : String
  value : String
  custom_data : CustomData
  max_fee_per_gas : String
  gas_limit : Nat

/-- src/out_types.rs, Response: the full decoded API response.  The last
five fields are the sponsored-only fields, Option<String> in the source. -/
structure Response where
  tx_data : TxData
  gas_limit : String
  gas_price : String
  token_address : String
  token_price : String
  fee_token_amount : String
  fee_token_decimals : String
  fee_usd : String
  markup : String
  expiration_time : String
  expires_in : String
  max_nonce : Option String
  protocol_address : Option String
  sponsorship_ratio : Option String
  estimated_final_fee_token_amount : Option String
  estimated_final_fee_usd : Option String

/-- serde Serialize for Option<String> without skip markers (response
side): None serializes as JSON null. -/
def optJson : Option String → Json
  | none => .null
  | some s => .str s

/-- serde Serialize for out_types::PaymasterParams (camelCase). -/
def PaymasterParams.toJson (p : PaymasterParams) : Json :=
  .obj [("paymaster", .str p.paymaster), ("paymasterInput", .str p.paymaster_input)]

/-- serde Serialize for out_types::CustomData (camelCase). -/
def CustomData.toJson (c : CustomData) : Json :=
  .obj [("paymasterParams", c.paymaster_params.toJson),
        ("gasPerPubdata", .num (Int.ofNat c.gas_per_pubdata))]

/-- serde Serialize for out_types::TxData (camelCase). -/
def TxData.toJson (t : TxData) : Json :=
  .obj [("chainId", .num (Int.ofNat t.chain_id)), ("from", .str t.from_), ("to", .str t.to_),
        ("data", .str t.data), ("value", .str t.value),
        ("customData", t.custom_data.toJson),
        ("maxFeePerGas", .str t.max_fee_per_gas), ("gasLimit", .num (Int.ofNat t.gas_limit))]

/-- serde Serialize for out_types::Response: rename_all = "camelCase"
except the two explicit renames feeTokendecimals and feeUSD. -/
def Response.toJson (r : Response) : Json :=
  .obj [("txData", r.tx_data.toJson), ("gasLimit", .str r.gas_limit),
        ("gasPrice", .str r.gas_price), ("tokenAddress", .str r.token_address),
        ("tokenPrice", .str r.token_price), ("feeTokenAmount", .str r.fee_token_amount),
        ("feeTokendecimals", .str r.fee_token_decimals), ("feeUSD", .str r.fee_usd),
        ("markup", .str r.markup), ("expirationTime", .str r.expiration_time),
        ("expiresIn", .str r.expires_in), ("maxNonce", optJson r.max_nonce),
        ("protocolAddress", optJson r.protocol_address),
        ("sponsorshipRatio", optJson r.sponsorship_ratio),
        ("estimatedFinalFeeTokenAmount", optJson r.estimated_final_fee_token_amount),
        ("estimatedFinalFeeUsd", optJson r.estimated_final_fee_usd)]

/-- serde Deserialize of a required field: absence is an error. -/
def reqField (fields : List (String × Json)) (k : String) : Except String Json :=
  match (fields.find? (fun p => p.fst == k)).map Prod.snd with
  | some v => .ok v
  | none => .error ("missing field " ++ k)

/-- serde Deserialize of a String from a JSON value. -/
def strOf (k : String) : Json → Except String String
  | .str s => .ok s
  | _ => .error ("invalid type for field " ++ k)

/-- serde Deserialize of an unsigned integer (u8/u32/u64, bound 2^w)
from a JSON value: negative or out-of-range numerals are rejected. -/
def natOf (bound : Nat) (k : String) : Json → Except String Nat
  | .num (Int.ofNat n) =>
      if n < bound then .ok n else .error ("integer out of range for field " ++ k)
  | _ => .error ("invalid type for field " ++ k)

/-- serde Deserialize of an Option<String> field: a missing key or an
explicit null decodes to None, a string to Some; anything else errors. -/
def optStrField (fields : List (String × Json)) (k : String) : Except String (Option String) :=
  match (fields.find? (fun p => p.fst == k)).map Prod.snd with
  | none => .ok none
  | some .null => .ok none
  | some (.str s) => .ok (some s)
  | some _ => .error ("invalid type for field " ++ k)

/-- serde Deserialize for out_types::PaymasterParams (camelCase keys,
unknown keys ignored). -/
def PaymasterParams.fromJson (j : Json) : Except String PaymasterParams :=
  match j with
  | .obj fs => do
      let p ← reqField fs "paymaster" >>= strOf "paymaster"
      let pi ← reqField fs "paymasterInput" >>= strOf "paymasterInput"
      .ok { paymaster := p, paymaster_input := pi }
  | _ => .error "invalid type: PaymasterParams expects an object"

/-- serde Deserialize for out_types::CustomData. -/
def CustomData.fromJson (j : Json) : Except String CustomData :=
  match j with
  | .obj fs => do
      let pp ← reqField fs "paymasterParams" >>= PaymasterParams.fromJson
      let gpp ← reqField fs "gasPerPubdata" >>= natOf (2 ^ 64) "gasPerPubdata"
      .ok { paymaster_params := pp, gas_per_pubdata := gpp }
  | _ => .error "invalid type: CustomData expects an object"

/-- serde Deserialize for out_types::TxData. -/
def TxData.fromJson (j : Json) : Except String TxData :=
  match j with
  | .obj fs => do
      let cid ← reqField fs "chainId" >>= natOf (2 ^ 32) "chainId"
      let f ← reqField fs "from" >>= strOf "from"
      let t ← reqField fs "to" >>= strOf "to"
      let d ← reqField fs "data" >>= strOf "data"
      let v ← reqField fs "value" >>= strOf "value"
      let cd ← reqField fs "customData" >>= CustomData.fromJson
      let mf ← reqField fs "maxFeePerGas" >>= strOf "maxFeePerGas"
      let gl ← reqField fs "gasLimit" >>= natOf (2 ^ 64) "gasLimit"
      .ok { chain_id := cid, from_ := f, to_ := t, data := d, value := v,
            custom_data := cd, max_fee_per_gas := mf, gas_limit := gl }
  | _ => .error "invalid type: TxData expects an object"

/-- serde Deserialize for out_types::Response: camelCase keys except the
literal renames feeTokendecimals and feeUSD; the five Option fields
decode to None when their key is missing or null. -/
def Response.fromJson (j : Json) : Except String Response :=
  match j with
  | .obj fs => do
      let txd ← reqField fs "txData" >>= TxData.fromJson
      let gl ← reqField fs "gasLimit" >>= strOf "gasLimit"
      let gp ← reqField fs "gasPrice" >>= strOf "gasPrice"
      let ta ← reqField fs "tokenAddress" >>= strOf "tokenAddress"
      let tp ← reqField fs "tokenPrice" >>= strOf "tokenPrice"
      let fta ← reqField fs "feeTokenAmount" >>= strOf "feeTokenAmount"
      let ftd ← reqField fs "feeTokendecimals" >>= strOf "feeTokendecimals"
      let fu ← reqField fs "feeUSD" >>= strOf "feeUSD"
      let mk ← reqField fs "markup" >>= strOf "markup"
      let et ← reqField fs "expirationTime" >>= strOf "expirationTime"
      let ei ← reqField fs "expiresIn" >>= strOf "expiresIn"
      let mn ← optStrField fs "maxNonce"
      let pa ← optStrField fs "protocolAddress"
      let sr ← optStrField fs "sponsorshipRatio"
      let ef ← optStrField fs "estimatedFinalFeeTokenAmount"
      let eu ← optStrField fs "estimatedFinalFeeUsd"
      .ok { tx_data := txd, gas_limit := gl, gas_price := gp, token_address := ta,
            token_price := tp, fee_token_amount := fta, fee_token_decimals := ftd,
            fee_usd := fu, markup := mk, expiration_time := et, expires_in := ei,
            max_nonce := mn, protocol_address := pa, sponsorship_ratio := sr,
            estimated_final_fee_token_amount := ef, estimated_final_fee_usd := eu }
  | _ => .error "invalid type: Response expects an object"

end out_types

/-- The left-brace character, by code point (123). -/
def lbrace : Char := Char.ofNat 123

/-- The right-brace character, by code point (125). -/
def rbrace : Char := Char.ofNat 125

/-- The double-quote character, by code point (34). -/
def quoteC : Char := Char.ofNat 34

/-- The backslash character, by code point (92). -/
def bslashC : Char := Char.ofNat 92

/-- JSON whitespace (RFC 8259). -/
def isJsonWs (c : Char) : Bool :=
  c == ' ' || c == '\n' || c == '\r' || c == '\t'

/-- Drop leading JSON whitespace. -/
def skipWs : List Char → List Char
  | [] => []
  | c :: cs => if isJsonWs c then skipWs cs else c :: cs

/-- Value of a hexadecimal digit, if any. -/
def hexVal (c : Char) : Option Nat :=
  if '0' ≤ c ∧ c ≤ '9' then some (c.toNat - 48)
  else if 'a' ≤ c ∧ c ≤ 'f' then some (c.toNat - 87)
  else if 'A' ≤ c ∧ c ≤ 'F' then some (c.toNat - 55)
  else none

/-- Parse the remainder of a JSON string literal (the opening quote
already consumed), handling the escape sequences of RFC 8259.  Returns
the decoded string and the input after the closing quote.  Fuel-driven
so that concrete runs reduce definitionally. -/
def parseStringBody : Nat → List Char → List Char → Option (String × List Char)
  | 0, _, _ => none
  | _ + 1, [], _ => none
  | f + 1, c :: cs, acc =>
    if c == quoteC then some (String.mk acc.reverse, cs)
    else if c == bslashC then
      match cs with
      | [] => none
      | e :: cs2 =>
        if e == quoteC then parseStringBody f cs2 (quoteC :: acc)
        else if e == bslashC then parseStringBody f cs2 (bslashC :: acc)
        else if e == '/' then parseStringBody f cs2 ('/' :: acc)
        else if e == 'n' then parseStringBody f cs2 ('\n' :: acc)
        else if e == 't' then parseStringBody f cs2 ('\t' :: acc)
        else if e == 'r' then parseStringBody f cs2 ('\r' :: acc)
        else if e == 'b' then parseStringBody f cs2 ('\x08' :: acc)
        else if e == 'f' then parseStringBody f cs2 ('\x0c' :: acc)
        else if e == 'u' then
          match cs2 with
          | h1 :: h2 :: h3 :: h4 :: cs3 =>
            match hexVal h1, hexVal h2, hexVal h3, hexVal h4 with
            | some a, some b, some c2, some d =>
                parseStringBody f cs3 (Char.ofNat (((a * 16 + b) * 16 + c2) * 16 + d) :: acc)
            | _, _, _, _ => none
          | _ => none
        else none
    else parseStringBody f cs (c :: acc)

/-- Consume a run of decimal digits, accumulating their value. -/
def parseDigits : List Char → Nat → Nat × List Char
  | [], acc => (acc, [])
  | c :: cs, acc =>
    if c.isDigit then parseDigits cs (acc * 10 + (c.toNat - 48)) else (acc, c :: cs)

/-- After a numeral: true when the numeral is an integer (not followed
by a fraction or exponent part). -/
def numIsIntAt : List Char → Bool
  | [] => true
  | c :: _ => !(c == '.' || c == 'e' || c == 'E')

/-- A partially-built JSON container awaiting further elements. -/
inductive Frame where
  | arr (done : List Json)
  | obj (done : List (String × Json)) (key : String)

/-- Parser mode: about to read a value, or just produced one. -/
inductive Mode where
  | value
  | emit (v : Json)

/-- Stack-machine JSON parser.  In value mode it reads one value start;
in emit mode it feeds a finished value to the innermost open container
(or returns it).  Every step consumes input or pops a frame whose
opening bracket was already consumed, so fuel 2*length+4 always
suffices; a single fuel recursion keeps every concrete run reducible by
rfl. -/
def parseLoop : Nat → Mode → List Char → List Frame → Except String (Json × List Char)
  | 0, _, _, _ => .error "JSON input exhausted the parser fuel"
  | f + 1, .value, cs, stack =>
    match skipWs cs with
    | [] => .error "unexpected end of JSON input"
    | c :: rest =>
      if c == lbrace then
        match skipWs rest with
        | [] => .error "unexpected end of JSON input"
        | c2 :: rest2 =>
          if c2 == rbrace then parseLoop f (.emit (.obj [])) rest2 stack
          else if c2 == quoteC then
            match parseStringBody (f + 1) rest2 [] with
            | none => .error "malformed string literal"
            | some (key, rest3) =>
              match skipWs rest3 with
              | ':' :: rest4 => parseLoop f .value rest4 (.obj [] key :: stack)
              | _ => .error "expected a colon after an object key"
          else .error "expected an object key or a closing brace"
      else if c == '[' then
        match skipWs rest with
        | ']' :: rest2 => parseLoop f (.emit (.arr [])) rest2 stack
        | rest2 => parseLoop f .value rest2 (.arr [] :: stack)
      else if c == quoteC then
        match parseStringBody (f + 1) rest [] with
        | none => .error "malformed string literal"
        | some (s, rest2) => parseLoop f (.emit (.str s)) rest2 stack
      else if c == 't' then
        match rest with
        | 'r' :: 'u' :: 'e' :: rest2 => parseLoop f (.emit (.bool true)) rest2 stack
        | _ => .error "malformed literal"
      else if c == 'f' then
        match rest with
        | 'a' :: 'l' :: 's' :: 'e' :: rest2 => parseLoop f (.emit (.bool false)) rest2 stack
        | _ => .error "malformed literal"
      else if c == 'n' then
        match rest with
        | 'u' :: 'l' :: 'l' :: rest2 => parseLoop f (.emit .null) rest2 stack
        | _ => .error "malformed literal"
      else if c == '-' then
        match rest with
        | [] => .error "malformed number"
        | d :: rest2 =>
          if d.isDigit then
            let pr := parseDigits rest2 (d.toNat - 48)
            if numIsIntAt pr.2 then
              parseLoop f (.emit (.num (-(pr.1 : Int)))) pr.2 stack
            else .error "non-integer numbers are outside this model"
          else .error "malformed number"
      else if c.isDigit then
        let pr := parseDigits rest (c.toNat - 48)
        if numIsIntAt pr.2 then
          parseLoop f (.emit (.num (pr.1 : Int))) pr.2 stack
        else .error "non-integer numbers are outside this model"
      else .error "unexpected character"
  | f + 1, .emit v, cs, stack =>
    match stack with
    | [] => .ok (v, cs)
    | .arr done :: st =>
      match skipWs cs with
      | ',' :: rest => parseLoop f .value rest (.arr (v :: done) :: st)
      | ']' :: rest => parseLoop f (.emit (.arr (v :: done).reverse)) rest st
      | _ => .error "expected a comma or closing bracket in an array"
    | .obj done key :: st =>
      match skipWs cs with
      | [] => .error "unexpected end of JSON input"
      | c :: rest =>
        if c == ',' then
          match skipWs rest with
          | [] => .error "unexpected end of JSON input"
          | c2 :: rest2 =>
            if c2 == quoteC then
              match parseStringBody (f + 1) rest2 [] with
              | none => .error "malformed string literal"
              | some (k2, rest3) =>
                match skipWs rest3 with
                | ':' :: rest4 => parseLoop f .value rest4 (.obj ((key, v) :: done) k2 :: st)
                | _ => .error "expected a colon after an object key"
            else .error "expected an object key"
        else if c == rbrace then
          parseLoop f (.emit (.obj ((key, v) :: done).reverse)) rest st
        else .error "expected a comma or closing brace in an object"

/-- serde_json parsing of a whole body string, as invoked by reqwest's
Response::json.  The model is slightly lenient where serde_json is
strict (leading zeros in numerals, raw control characters inside string
literals) and rejects non-integer numerals, which no field of this
crate's schema carries; in handleResponse every parse failure and every
shape failure land in the same error branch, so these corners do not
change any error classification. -/
def parseJson (s : String) : Except String Json :=
  match parseLoop (2 * s.length + 4) .value s.data [] with
  | .error e => .error e
  | .ok (v, rest) =>
    match skipWs rest with
    | [] => .ok v
    | _ => .error "trailing characters after the JSON value"

/-- Error outcomes of the client, one constructor per anyhow site in
src/lib.rs.  The code's errors are anyhow values carrying only message
text; each constructor holds the data that its site puts into that
text. -/
inductive Error where
  /-- lib.rs sponsored: anyhow raised when api_key is None. -/
  | configurationError (msg : String)
  /-- The question-mark operator on reqwest send(): a transport failure,
  wrapping the underlying cause. -/
  | transportError (cause : String)
  /-- lib.rs handle_response, non-2xx branch: the bail message, which
  embeds the Debug formatting of the body text. -/
  | apiError (msg : String)
  /-- lib.rs handle_response, 2xx branch: decoding failed; carries the
  parse diagnostic that the code interpolates into its message. -/
  | decodeError (diag : String)

/-- Rust char escaping as performed by the Debug formatting of a string
in format strings (the brace-colon-question-brace placeholder): quote,
backslash and the common control characters get a backslash escape,
other control characters a \u escape.  Code points above ASCII that Rust
would also escape (by its unicode printability table) are left verbatim
here; every body this development evaluates is ASCII. -/
def escapeDebugChar (c : Char) : List Char :=
  if c == quoteC then [bslashC, quoteC]
  else if c == bslashC then [bslashC, bslashC]
  else if c == '\n' then [bslashC, 'n']
  else if c == '\r' then [bslashC, 'r']
  else if c == '\t' then [bslashC, 't']
  else if c.toNat < 32 then
    [bslashC, 'u', lbrace] ++ (Nat.toDigits 16 c.toNat) ++ [rbrace]
  else [c]

/-- Rust Debug formatting of a string value: the escaped text between
double quotes. -/
def rustDebugStr (s : String) : String :=
  String.mk (quoteC :: (s.data.flatMap escapeDebugChar) ++ [quoteC])

/-- reqwest StatusCode::is_success: code in 200..=299. -/
def isSuccessStatus (status : Nat) : Bool :=
  200 ≤ status && status ≤ 299

/-- serde_json deserialization of a response body into out_types
Response, as one step (reqwest Response::json): parse, then shape
decode. -/
def decodeBody (body : String) : Except String out_types.Response :=
  match parseJson body with
  | .error e => .error e
  | .ok j => out_types.Response.fromJson j

/-- src/lib.rs ClientZyFi::handle_response, on a response with the given
status and body text.  2xx: decode the body, a failure becoming the
anyhow decode error; otherwise: bail with the message that interpolates
the Debug formatting of the raw body text (the status itself is only
printed to stdout, not put into the error). -/
def handleResponse (status : Nat) (body : String) : Except Error out_types.Response :=
  if isSuccessStatus status then
    match decodeBody body with
    | .ok r => .ok r
    | .error e => .error (.decodeError e)
  else
    .error (.apiError ("ZyFi error: " ++ rustDebugStr body))

/-- src/lib.rs ClientZyFi: the client configuration.  chain_id is u32
in the source. -/
structure ClientZyFi where
  api_key : Option String
  fee_token_address : Option String
  testnet : Bool
  chain_id : Nat

/-- src/lib.rs impl Default for ClientZyFi. -/
def ClientZyFi.default : ClientZyFi :=
  { api_key := none
    fee_token_address := none
    testnet := false
    chain_id := 324 }

/-- The sponsored-paymaster endpoint constant from src/lib.rs. -/
def ZYFI_SPONSORED_URL : String := "https://api.zyfi.org/api/erc20_sponsored_paymaster/v1"

/-- The fee-paymaster endpoint constant from src/lib.rs. -/
def ZYFI_PAYMASTER_URL : String := "https://api.zyfi.org/api/erc20_paymaster/v1"

/-- An outbound HTTP POST as assembled by the reqwest builder calls in
src/lib.rs: target URL, header list in the order set, JSON body. -/
structure HttpRequest where
  url : String
  headers : List (String × String)
  body : Json

/-- An inbound HTTP response: status code and raw body text. -/
structure HttpResponse where
  status : Nat
  body : String

/-- Everything observable about one client call: its outcome, the
requests that actually went out on the wire, and the client's
configuration fields as they stand after the call. -/
structure CallTrace where
  outcome : Except Error out_types.Response
  sent : List HttpRequest
  client : ClientZyFi

/-- The in_types::Request literal built in ClientZyFi::sponsored
(src/lib.rs lines 47-59): sponsorship_ratio Some 100, replay_limit
Some 1, chain_id and is_testnet from the configuration, the transaction
fields under tx_data, the rest from Default (fee_token_address None).
The source also writes a gas_limit field into this literal from a fourth
method parameter, but in_types::Request (src/in_types.rs) declares no
such field, so the crate as given does not build (E0560); the literal is
embedded over the fields the struct declares. -/
def ClientZyFi.sponsoredRequest (c : ClientZyFi) (tx_from tx_to tx_data : String) :
    in_types.Request :=
  { in_types.Request.default with
    chain_id := c.chain_id
    sponsorship_ratio := some 100
    replay_limit := some 1
    tx_data := { from_ := tx_from, to_ := tx_to, data := tx_data }
    is_testnet := c.testnet }

/-- The in_types::Request literal built in ClientZyFi::paymaster
(src/lib.rs lines 85-96): chain_id, is_testnet and fee_token_address
from the configuration, the transaction fields under tx_data, the rest
from Default (sponsorship_ratio and replay_limit None).  The same
nonexistent gas_limit field is written here too; see sponsoredRequest. -/
def ClientZyFi.paymasterRequest (c : ClientZyFi) (tx_from tx_to tx_data : String) :
    in_types.Request :=
  { in_types.Request.default with
    chain_id := c.chain_id
    tx_data := { from_ := tx_from, to_ := tx_to, data := tx_data }
    is_testnet := c.testnet
    fee_token_address := c.fee_token_address }

/-- The send-and-handle step shared by both methods in src/lib.rs: the
assembled request goes to the transport once; a transport failure
surfaces through the question-mark operator, a response goes through
handle_response.  Neither method assigns to any field of self (both
take a shared reference), so the configuration after the call is the
configuration before it. -/
def dispatch (c : ClientZyFi) (req : HttpRequest)
    (transport : HttpRequest → Except String HttpResponse) : CallTrace :=
  match transport req with
  | .error e => { outcome := .error (.transportError e), sent := [req], client := c }
  | .ok resp => { outcome := handleResponse resp.status resp.body, sent := [req], client := c }

/-- src/lib.rs ClientZyFi::sponsored, run against a transport (the
reqwest send step, which may fail before a response is obtained).  The
api_key check sits in the builder chain ahead of send, so its failure
returns before anything is dispatched.  gas_limit is the fourth method
parameter of the source signature; it reaches no declared field of the
request (see sponsoredRequest). -/
def ClientZyFi.sponsored (c : ClientZyFi) (tx_from tx_to tx_data : String)
    (gas_limit : Option String)
    (transport : HttpRequest → Except String HttpResponse) : CallTrace :=
  match c.api_key with
  | none =>
    { outcome := .error (.configurationError
        "API key not set - which is necessary to sponsor ZyFi transactions")
      sent := []
      client := c }
  | some key =>
    dispatch c
      { url := ZYFI_SPONSORED_URL
        headers := [("Content-Type", "application/json"), ("X-API-Key", key)]
        body := in_types.Request.toJson (c.sponsoredRequest tx_from tx_to tx_data) }
      transport

/-- src/lib.rs ClientZyFi::paymaster, run against a transport.  No api
key check and no X-API-Key header; only Content-Type is set.  gas_limit
as in sponsored. -/
def ClientZyFi.paymaster (c : ClientZyFi) (tx_from tx_to tx_data : String)
    (gas_limit : Option String)
    (transport : HttpRequest → Except String HttpResponse) : CallTrace :=
  dispatch c
    { url := ZYFI_PAYMASTER_URL
      headers := [("Content-Type", "application/json")]
      body := in_types.Request.toJson (c.paymasterRequest tx_from tx_to tx_data) }
    transport

/-- Bind on an ok value reduces to the continuation. -/
theorem ok_bind {α β ε : Type} (a : α) (f : α → Except ε β) :
    (Except.ok (ε := ε) a >>= f) = f a := rfl

/-- Bind on an error short-circuits. -/
theorem error_bind {α β ε : Type} (e : ε) (f : α → Except ε β) :
    (Except.error (α := α) e >>= f : Except ε β) = Except.error e := rfl

namespace out_types

/-- Decoding inverts encoding for PaymasterParams. -/
theorem paymasterParams_round (p : PaymasterParams) :
    PaymasterParams.fromJson (PaymasterParams.toJson p) = .ok p := rfl

/-- Decoding inverts encoding for CustomData, within the u64 range the
source type imposes. -/
theorem customData_round (c : CustomData) (h : c.gas_per_pubdata < 2 ^ 64) :
    CustomData.fromJson (CustomData.toJson c) = .ok c := by
  obtain ⟨pp, gpp⟩ := c
  simp only [CustomData.gas_per_pubdata] at h
  simp only [CustomData.fromJson, CustomData.toJson, reqField, PaymasterParams.fromJson,
    PaymasterParams.toJson, strOf, natOf, ok_bind, List.find?, Option.map,
    String.reduceBEq, h, if_true]

/-- Decoding inverts encoding for the response-side TxData, within the
u32/u64 ranges the source type imposes. -/
theorem txData_round (t : TxData) (h1 : t.chain_id < 2 ^ 32)
    (h2 : t.custom_data.gas_per_pubdata < 2 ^ 64) (h3 : t.gas_limit < 2 ^ 64) :
    TxData.fromJson (TxData.toJson t) = .ok t := by
  obtain ⟨cid, f, to_, d, v, cd, mf, gl⟩ := t
  simp only [TxData.chain_id, TxData.custom_data, TxData.gas_limit] at h1 h2 h3
  have hcd := customData_round cd h2
  simp only [TxData.fromJson, TxData.toJson, reqField, strOf, natOf, ok_bind,
    List.find?, Option.map, String.reduceBEq, h1, h3, hcd, if_true]

/-- Decoding inverts encoding for Response, within the ranges the
source's unsigned integer fields impose. -/
theorem response_round (r : Response) (h1 : r.tx_data.chain_id < 2 ^ 32)
    (h2 : r.tx_data.custom_data.gas_per_pubdata < 2 ^ 64)
    (h3 : r.tx_data.gas_limit < 2 ^ 64) :
    Response.fromJson (Response.toJson r) = .ok r := by
  obtain ⟨td, gl, gp, ta, tp, fta, ftd, fu, mk, et, ei, mn, pa, sr, ef, eu⟩ := r
  simp only [Response.tx_data] at h1 h2 h3
  have htd := txData_round td h1 h2 h3
  cases mn <;> cases pa <;> cases sr <;> cases ef <;> cases eu <;>
    simp only [Response.fromJson, Response.toJson, reqField, strOf, optStrField, optJson,
      ok_bind, List.find?, Option.map, String.reduceBEq, htd, if_true]

end out_types

/-- The shared handler never produces the configuration error: its two
error sites are the decode failure and the non-2xx bail. -/
theorem handleResponse_ne_configurationError (s : Nat) (b : String) (m : String) :
    handleResponse s b ≠ Except.error (.configurationError m) := by
  unfold handleResponse
  split
  · cases hd : decodeBody b <;> simp
  · simp

/-- A dispatched call leaves the client fields untouched. -/
theorem dispatch_client (c : ClientZyFi) (req : HttpRequest)
    (tr : HttpRequest → Except String HttpResponse) :
    (dispatch c req tr).client = c := by
  unfold dispatch
  cases tr req <;> rfl

/-- A dispatched call invokes the transport on exactly the one request. -/
theorem dispatch_sent (c : ClientZyFi) (req : HttpRequest)
    (tr : HttpRequest → Except String HttpResponse) :
    (dispatch c req tr).sent = [req] := by
  unfold dispatch
  cases tr req <;> rfl

/-- A dispatched call cannot surface the configuration error: its
outcome is a transport error or a handler outcome. -/
theorem dispatch_outcome_ne_configurationError (c : ClientZyFi) (req : HttpRequest)
    (tr : HttpRequest → Except String HttpResponse) (m : String) :
    (dispatch c req tr).outcome ≠ Except.error (.configurationError m) := by
  unfold dispatch
  cases tr req with
  | error e => simp
  | ok resp => simpa using handleResponse_ne_configurationError resp.status resp.body m

/-- C1: for every client configuration and every transaction input, the
payload built by the sponsored operation carries sponsorshipRatio 100
and replayLimit 1 and has no feeTokenAddress key, whether or not a
fee-token address is configured on the client. -/
theorem C1_sponsored_payload (c : ClientZyFi) (tx_from tx_to tx_data : String) :
    Json.getField (in_types.Request.toJson (c.sponsoredRequest tx_from tx_to tx_data))
        "sponsorshipRatio" = some (.num 100) ∧
    Json.getField (in_types.Request.toJson (c.sponsoredRequest tx_from tx_to tx_data))
        "replayLimit" = some (.num 1) ∧
    Json.getField (in_types.Request.toJson (c.sponsoredRequest tx_from tx_to tx_data))
        "feeTokenAddress" = none :=
  ⟨rfl, rfl, rfl⟩

/-- C2: for every client configuration and transaction input, the
payload built by the paymaster operation has no sponsorshipRatio and no
replayLimit key, has a feeTokenAddress key exactly when the client
configures one (with that value), and the request put on the wire
carries no X-API-Key header whether or not an API key is configured. -/
theorem C2_paymaster_payload_and_headers (c : ClientZyFi) (tx_from tx_to tx_data : String)
    (gas_limit : Option String) (tr : HttpRequest → Except String HttpResponse) :
    Json.getField (in_types.Request.toJson (c.paymasterRequest tx_from tx_to tx_data))
        "sponsorshipRatio" = none ∧
    Json.getField (in_types.Request.toJson (c.paymasterRequest tx_from tx_to tx_data))
        "replayLimit" = none ∧
    Json.getField (in_types.Request.toJson (c.paymasterRequest tx_from tx_to tx_data))
        "feeTokenAddress" = Option.map Json.str c.fee_token_address ∧
    (c.paymaster tx_from tx_to tx_data gas_limit tr).sent.all
        (fun r => !((r.headers.map Prod.fst).contains "X-API-Key")) = true := by
  obtain ⟨ak, fta, tn, cid⟩ := c
  refine ⟨?_, ?_, ?_, ?_⟩
  · cases fta <;> rfl
  · cases fta <;> rfl
  · cases fta <;> rfl
  · rw [ClientZyFi.paymaster, dispatch_sent]
    rfl

/-- C3: a sponsored call on a client with no API key fails with the
configuration error and invokes the transport zero times; on a client
with an API key set, sponsored never surfaces a configuration error. -/
theorem C3_sponsored_requires_api_key (c : ClientZyFi) (tx_from tx_to tx_data : String)
    (gas_limit : Option String) (tr : HttpRequest → Except String HttpResponse) :
    (c.api_key = none →
      (c.sponsored tx_from tx_to tx_data gas_limit tr).outcome =
        .error (.configurationError
          "API key not set - which is necessary to sponsor ZyFi transactions") ∧
      (c.sponsored tx_from tx_to tx_data gas_limit tr).sent = []) ∧
    (∀ k, c.api_key = some k → ∀ m,
      (c.sponsored tx_from tx_to tx_data gas_limit tr).outcome ≠
        .error (.configurationError m)) := by
  constructor
  · intro h
    rw [ClientZyFi.sponsored, h]
    exact ⟨rfl, rfl⟩
  · intro k hk m
    rw [ClientZyFi.sponsored, hk]
    exact dispatch_outcome_ne_configurationError _ _ _ _

/-- C3 witness: with no API key the call returns the configuration
error and sends nothing; with a key set the outcome is never the
configuration error. -/
theorem C3_witness :
    ((ClientZyFi.default.sponsored "0xa" "0xb" "0xc" none (fun _ => .ok ⟨200, ""⟩)).outcome =
      .error (.configurationError
        "API key not set - which is necessary to sponsor ZyFi transactions")) ∧
    ((ClientZyFi.default.sponsored "0xa" "0xb" "0xc" none (fun _ => .ok ⟨200, ""⟩)).sent = []) ∧
    ((({ api_key := some "k", fee_token_address := none, testnet := false,
         chain_id := 324 } : ClientZyFi).sponsored "0xa" "0xb" "0xc" none
        (fun _ => .ok ⟨200, ""⟩)).outcome ≠ .error (.configurationError "m")) :=
  ⟨((C3_sponsored_requires_api_key ClientZyFi.default "0xa" "0xb" "0xc" none
      (fun _ => .ok ⟨200, ""⟩)).1 rfl).1,
   ((C3_sponsored_requires_api_key ClientZyFi.default "0xa" "0xb" "0xc" none
      (fun _ => .ok ⟨200, ""⟩)).1 rfl).2,
   (C3_sponsored_requires_api_key _ "0xa" "0xb" "0xc" none
      (fun _ => .ok ⟨200, ""⟩)).2 "k" rfl "m"⟩

/-- C9: neither operation changes any of the four configuration fields,
whatever the transport does. -/
theorem C9_config_unchanged (c : ClientZyFi) (tx_from tx_to tx_data : String)
    (gas_limit : Option String) (tr : HttpRequest → Except String HttpResponse) :
    ((c.sponsored tx_from tx_to tx_data gas_limit tr).client.api_key = c.api_key ∧
     (c.sponsored tx_from tx_to tx_data gas_limit tr).client.fee_token_address =
       c.fee_token_address ∧
     (c.sponsored tx_from tx_to tx_data gas_limit tr).client.testnet = c.testnet ∧
     (c.sponsored tx_from tx_to tx_data gas_limit tr).client.chain_id = c.chain_id) ∧
    ((c.paymaster tx_from tx_to tx_data gas_limit tr).client.api_key = c.api_key ∧
     (c.paymaster tx_from tx_to tx_data gas_limit tr).client.fee_token_address =
       c.fee_token_address ∧
     (c.paymaster tx_from tx_to tx_data gas_limit tr).client.testnet = c.testnet ∧
     (c.paymaster tx_from tx_to tx_data gas_limit tr).client.chain_id = c.chain_id) := by
  have hs : (c.sponsored tx_from tx_to tx_data gas_limit tr).client = c := by
    rw [ClientZyFi.sponsored]
    cases c.api_key
    · rfl
    · exact dispatch_client _ _ _
  have hp : (c.paymaster tx_from tx_to tx_data gas_limit tr).client = c := by
    rw [ClientZyFi.paymaster]
    exact dispatch_client _ _ _
  rw [hs, hp]
  exact ⟨⟨rfl, rfl, rfl, rfl⟩, ⟨rfl, rfl, rfl, rfl⟩⟩

/-- C10: the default client has no API key, no fee-token address,
testnet false (mainnet), and chain id 324 (ZkSync mainnet). -/
theorem C10_default_config :
    ClientZyFi.default.api_key = none ∧
    ClientZyFi.default.fee_token_address = none ∧
    ClientZyFi.default.testnet = false ∧
    ClientZyFi.default.chain_id = 324 :=
  ⟨rfl, rfl, rfl, rfl⟩

/-- C4 counterexample: on status 402 with body "insufficient balance"
the code produces the bail error whose entire payload is the message
"ZyFi error: " followed by the Debug-quoted body; that message is not
the body text verbatim, and it contains no digit at all, so the status
402 is not carried in the error. -/
theorem C4_counterexample :
    handleResponse 402 "insufficient balance" =
      .error (.apiError "ZyFi error: \"insufficient balance\"") ∧
    "ZyFi error: \"insufficient balance\"" ≠ "insufficient balance" ∧
    ("ZyFi error: \"insufficient balance\"").data.all (fun ch => !ch.isDigit) = true :=
  ⟨rfl, by decide, rfl⟩

/-- C4 (amended): for every non-2xx status the handler fails with the
api error whose message is "ZyFi error: " followed by the Debug
formatting of the raw body (the body between escaped quotes), for any
body text; the numeric status is printed to stdout but not carried in
the error. -/
theorem C4_apiError_message (status : Nat) (body : String)
    (h : isSuccessStatus status = false) :
    handleResponse status body =
      .error (.apiError ("ZyFi error: " ++ rustDebugStr body)) := by
  rw [handleResponse, h]
  rfl

/-- C4 witness: the amended statement at status 402 and body
"insufficient balance". -/
theorem C4_witness :
    isSuccessStatus 402 = false ∧
    handleResponse 402 "insufficient balance" =
      .error (.apiError ("ZyFi error: " ++ rustDebugStr "insufficient balance")) :=
  ⟨rfl, C4_apiError_message 402 "insufficient balance" rfl⟩

/-- C5: for every 2xx status, the handler returns the decoded response
when the body decodes, and fails with the decode error carrying the
parse diagnostic when the body is malformed or of the wrong shape. -/
theorem C5_success_branch (status : Nat) (body : String)
    (h : isSuccessStatus status = true) :
    (∀ r, decodeBody body = .ok r → handleResponse status body = .ok r) ∧
    (∀ m, decodeBody body = .error m →
      handleResponse status body = .error (.decodeError m)) := by
  constructor
  · intro r hr
    rw [handleResponse, h, hr]
    rfl
  · intro m hm
    rw [handleResponse, h, hm]
    rfl

/-- A well-formed response body exercising every required field. -/
def sampleBody : String :=
  "\x7b\"txData\":\x7b\"chainId\":324,\"from\":\"0xa\",\"to\":\"0xb\",\"data\":\"0xc\"," ++
  "\"value\":\"0\",\"customData\":\x7b\"paymasterParams\":\x7b\"paymaster\":\"0xp\"," ++
  "\"paymasterInput\":\"0xi\"\x7d,\"gasPerPubdata\":50000\x7d,\"maxFeePerGas\":\"25000000\"," ++
  "\"gasLimit\":500000\x7d,\"gasLimit\":\"400000\",\"gasPrice\":\"25000000\"," ++
  "\"tokenAddress\":\"0xt\",\"tokenPrice\":\"0.9\",\"feeTokenAmount\":\"12\"," ++
  "\"feeTokendecimals\":\"18\",\"feeUSD\":\"0.01\",\"markup\":\"1.1\"," ++
  "\"expirationTime\":\"1700000000\",\"expiresIn\":\"300\"\x7d"

/-- The value sampleBody decodes to. -/
def sampleResponse : out_types.Response :=
  { tx_data :=
      { chain_id := 324, from_ := "0xa", to_ := "0xb", data := "0xc", value := "0",
        custom_data :=
          { paymaster_params := { paymaster := "0xp", paymaster_input := "0xi" }
            gas_per_pubdata := 50000 }
        max_fee_per_gas := "25000000", gas_limit := 500000 }
    gas_limit := "400000", gas_price := "25000000", token_address := "0xt"
    token_price := "0.9", fee_token_amount := "12", fee_token_decimals := "18"
    fee_usd := "0.01", markup := "1.1", expiration_time := "1700000000"
    expires_in := "300", max_nonce := none, protocol_address := none
    sponsorship_ratio := none, estimated_final_fee_token_amount := none
    estimated_final_fee_usd := none }

set_option maxRecDepth 100000

/-- C5 witness: at status 200, a body that is an object missing the
required txData field fails with the decode error carrying that
diagnostic, and a fully-formed body decodes and is returned. -/
theorem C5_witness :
    isSuccessStatus 200 = true ∧
    decodeBody "\x7b\x7d" = .error "missing field txData" ∧
    handleResponse 200 "\x7b\x7d" = .error (.decodeError "missing field txData") ∧
    decodeBody sampleBody = .ok sampleResponse ∧
    handleResponse 200 sampleBody = .ok sampleResponse :=
  ⟨rfl, rfl,
   (C5_success_branch 200 "\x7b\x7d" rfl).2 "missing field txData" rfl,
   rfl,
   (C5_success_branch 200 sampleBody rfl).1 sampleResponse rfl⟩

/-- C6 (the part the declared types make well-formed): the payload
sponsored serializes consists of exactly the keys chainId,
sponsorshipRatio, replayLimit, txData and isTestnet, in declaration
order, the unset feeTokenAddress being omitted.  The rest of the claim
concerns the method signature itself; see the divergence record: the
source method takes a fourth caller-supplied field gas_limit and writes
it into a field in_types::Request does not declare. -/
theorem C6_sponsored_payload_keys (c : ClientZyFi) (tx_from tx_to tx_data : String) :
    Json.keys (in_types.Request.toJson (c.sponsoredRequest tx_from tx_to tx_data)) =
      ["chainId", "sponsorshipRatio", "replayLimit", "txData", "isTestnet"] :=
  rfl

/-- C7: decoding the JSON encoding of a Response yields the same value,
for every Response whose numeric fields are in the ranges the source's
u32/u64 types impose (the only values the core can hold). -/
theorem C7_response_round_trip (r : out_types.Response)
    (h1 : r.tx_data.chain_id < 2 ^ 32)
    (h2 : r.tx_data.custom_data.gas_per_pubdata < 2 ^ 64)
    (h3 : r.tx_data.gas_limit < 2 ^ 64) :
    out_types.Response.fromJson (out_types.Response.toJson r) = .ok r :=
  out_types.response_round r h1 h2 h3

/-- C7 witness: the round trip at a concrete response value carrying
every optional field. -/
theorem C7_witness :
    out_types.Response.fromJson (out_types.Response.toJson
      { tx_data :=
          { chain_id := 324, from_ := "0xa", to_ := "0xb", data := "0xc", value := "0",
            custom_data :=
              { paymaster_params := { paymaster := "0xp", paymaster_input := "0xi" }
                gas_per_pubdata := 50000 }
            max_fee_per_gas := "25000000", gas_limit := 500000 }
        gas_limit := "400000", gas_price := "25000000", token_address := "0xt"
        token_price := "0.9", fee_token_amount := "12", fee_token_decimals := "18"
        fee_usd := "0.01", markup := "1.1", expiration_time := "1700000000"
        expires_in := "300", max_nonce := some "42", protocol_address := some "0xq"
        sponsorship_ratio := some "100", estimated_final_fee_token_amount := some "11"
        estimated_final_fee_usd := some "0.009" }) = .ok
      { tx_data :=
          { chain_id := 324, from_ := "0xa", to_ := "0xb", data := "0xc", value := "0",
            custom_data :=
              { paymaster_params := { paymaster := "0xp", paymaster_input := "0xi" }
                gas_per_pubdata := 50000 }
            max_fee_per_gas := "25000000", gas_limit := 500000 }
        gas_limit := "400000", gas_price := "25000000", token_address := "0xt"
        token_price := "0.9", fee_token_amount := "12", fee_token_decimals := "18"
        fee_usd := "0.01", markup := "1.1", expiration_time := "1700000000"
        expires_in := "300", max_nonce := some "42", protocol_address := some "0xq"
        sponsorship_ratio := some "100", estimated_final_fee_token_amount := some "11"
        estimated_final_fee_usd := some "0.009" } :=
  C7_response_round_trip _ (by norm_num) (by norm_num) (by norm_num)

/-- C8: decoding reads the serde-derived camelCase keys, the two
literally-renamed keys feeTokendecimals and feeUSD among them; each
sponsored-only field decodes to the absent state when its key (maxNonce,
protocolAddress, sponsorshipRatio, estimatedFinalFeeTokenAmount,
estimatedFinalFeeUsd) is missing from the payload, decoding still
succeeding, and the same payload with those five keys present decodes
each of them to its value. -/
theorem C8_decode_optional_keys
    (f t d v p pi mf gl2 gp ta tp fta ftd fu mk et ei mn pa sr ef eu : String)
    (cid gpp gl : Nat) (h1 : cid < 2 ^ 32) (h2 : gpp < 2 ^ 64) (h3 : gl < 2 ^ 64) :
    out_types.Response.fromJson (.obj
      [("txData", .obj
          [("chainId", .num (Int.ofNat cid)), ("from", .str f), ("to", .str t),
           ("data", .str d), ("value", .str v),
           ("customData", .obj
              [("paymasterParams", .obj
                  [("paymaster", .str p), ("paymasterInput", .str pi)]),
               ("gasPerPubdata", .num (Int.ofNat gpp))]),
           ("maxFeePerGas", .str mf), ("gasLimit", .num (Int.ofNat gl))]),
       ("gasLimit", .str gl2), ("gasPrice", .str gp), ("tokenAddress", .str ta),
       ("tokenPrice", .str tp), ("feeTokenAmount", .str fta),
       ("feeTokendecimals", .str ftd), ("feeUSD", .str fu), ("markup", .str mk),
       ("expirationTime", .str et), ("expiresIn", .str ei)]) = .ok
      { tx_data :=
          { chain_id := cid, from_ := f, to_ := t, data := d, value := v,
            custom_data :=
              { paymaster_params := { paymaster := p, paymaster_input := pi }
                gas_per_pubdata := gpp }
            max_fee_per_gas := mf, gas_limit := gl }
        gas_limit := gl2, gas_price := gp, token_address := ta, token_price := tp,
        fee_token_amount := fta, fee_token_decimals := ftd, fee_usd := fu,
        markup := mk, expiration_time := et, expires_in := ei,
        max_nonce := none, protocol_address := none, sponsorship_ratio := none,
        estimated_final_fee_token_amount := none, estimated_final_fee_usd := none } ∧
    out_types.Response.fromJson (.obj
      [("txData", .obj
          [("chainId", .num (Int.ofNat cid)), ("from", .str f), ("to", .str t),
           ("data", .str d), ("value", .str v),
           ("customData", .obj
              [("paymasterParams", .obj
                  [("paymaster", .str p), ("paymasterInput", .str pi)]),
               ("gasPerPubdata", .num (Int.ofNat gpp))]),
           ("maxFeePerGas", .str mf), ("gasLimit", .num (Int.ofNat gl))]),
       ("gasLimit", .str gl2), ("gasPrice", .str gp), ("tokenAddress", .str ta),
       ("tokenPrice", .str tp), ("feeTokenAmount", .str fta),
       ("feeTokendecimals", .str ftd), ("feeUSD", .str fu), ("markup", .str mk),
       ("expirationTime", .str et), ("expiresIn", .str ei),
       ("maxNonce", .str mn), ("protocolAddress", .str pa),
       ("sponsorshipRatio", .str sr), ("estimatedFinalFeeTokenAmount", .str ef),
       ("estimatedFinalFeeUsd", .str eu)]) = .ok
      { tx_data :=
          { chain_id := cid, from_ := f, to_ := t, data := d, value := v,
            custom_data :=
              { paymaster_params := { paymaster := p, paymaster_input := pi }
                gas_per_pubdata := gpp }
            max_fee_per_gas := mf, gas_limit := gl }
        gas_limit := gl2, gas_price := gp, token_address := ta, token_price := tp,
        fee_token_amount := fta, fee_token_decimals := ftd, fee_usd := fu,
        markup := mk, expiration_time := et, expires_in := ei,
        max_nonce := some mn, protocol_address := some pa,
        sponsorship_ratio := some sr, estimated_final_fee_token_amount := some ef,
        estimated_final_fee_usd := some eu } := by
  refine ⟨?_, ?_⟩ <;>
    simp only [out_types.Response.fromJson, out_types.TxData.fromJson,
      out_types.CustomData.fromJson, out_types.PaymasterParams.fromJson,
      out_types.reqField, out_types.strOf, out_types.natOf, out_types.optStrField,
      ok_bind, List.find?, Option.map, String.reduceBEq, h1, h2, h3, if_true]

/-- C8 witness: both parts of the statement at concrete field values,
once with the five sponsored-only keys missing and once with them
present. -/
theorem C8_witness :
    (out_types.Response.fromJson (.obj
      [("txData", .obj
          [("chainId", .num 324), ("from", .str "0xa"), ("to", .str "0xb"),
           ("data", .str "0xc"), ("value", .str "0"),
           ("customData", .obj
              [("paymasterParams", .obj
                  [("paymaster", .str "0xp"), ("paymasterInput", .str "0xi")]),
               ("gasPerPubdata", .num 50000)]),
           ("maxFeePerGas", .str "25000000"), ("gasLimit", .num 500000)]),
       ("gasLimit", .str "400000"), ("gasPrice", .str "25000000"),
       ("tokenAddress", .str "0xt"), ("tokenPrice", .str "0.9"),
       ("feeTokenAmount", .str "12"), ("feeTokendecimals", .str "18"),
       ("feeUSD", .str "0.01"), ("markup", .str "1.1"),
       ("expirationTime", .str "1700000000"), ("expiresIn", .str "300")]) = .ok
      { tx_data :=
          { chain_id := 324, from_ := "0xa", to_ := "0xb", data := "0xc", value := "0",
            custom_data :=
              { paymaster_params := { paymaster := "0xp", paymaster_input := "0xi" }
                gas_per_pubdata := 50000 }
            max_fee_per_gas := "25000000", gas_limit := 500000 }
        gas_limit := "400000", gas_price := "25000000", token_address := "0xt",
        token_price := "0.9", fee_token_amount := "12", fee_token_decimals := "18",
        fee_usd := "0.01", markup := "1.1", expiration_time := "1700000000",
        expires_in := "300", max_nonce := none, protocol_address := none,
        sponsorship_ratio := none, estimated_final_fee_token_amount := none,
        estimated_final_fee_usd := none }) ∧
    (out_types.Response.fromJson (.obj
      [("txData", .obj
          [("chainId", .num 324), ("from", .str "0xa"), ("to", .str "0xb"),
           ("data", .str "0xc"), ("value", .str "0"),
           ("customData", .obj
              [("paymasterParams", .obj
                  [("paymaster", .str "0xp"), ("paymasterInput", .str "0xi")]),
               ("gasPerPubdata", .num 50000)]),
           ("maxFeePerGas", .str "25000000"), ("gasLimit", .num 500000)]),
       ("gasLimit", .str "400000"), ("gasPrice", .str "25000000"),
       ("tokenAddress", .str "0xt"), ("tokenPrice", .str "0.9"),
       ("feeTokenAmount", .str "12"), ("feeTokendecimals", .str "18"),
       ("feeUSD", .str "0.01"), ("markup", .str "1.1"),
       ("expirationTime", .str "1700000000"), ("expiresIn", .str "300"),
       ("maxNonce", .str "42"), ("protocolAddress", .str "0xq"),
       ("sponsorshipRatio", .str "100"),
       ("estimatedFinalFeeTokenAmount", .str "11"),
       ("estimatedFinalFeeUsd", .str "0.009")]) = .ok
      { tx_data :=
          { chain_id := 324, from_ := "0xa", to_ := "0xb", data := "0xc", value := "0",
            custom_data :=
              { paymaster_params := { paymaster := "0xp", paymaster_input := "0xi" }
                gas_per_pubdata := 50000 }
            max_fee_per_gas := "25000000", gas_limit := 500000 }
        gas_limit := "400000", gas_price := "25000000", token_address := "0xt",
        token_price := "0.9", fee_token_amount := "12", fee_token_decimals := "18",
        fee_usd := "0.01", markup := "1.1", expiration_time := "1700000000",
        expires_in := "300", max_nonce := some "42", protocol_address := some "0xq",
        sponsorship_ratio := some "100",
        estimated_final_fee_token_amount := some "11",
        estimated_final_fee_usd := some "0.009" }) := by
  have h := C8_decode_optional_keys "0xa" "0xb" "0xc" "0" "0xp" "0xi" "25000000"
    "400000" "25000000" "0xt" "0.9" "12" "18" "0.01" "1.1" "1700000000" "300"
    "42" "0xq" "100" "11" "0.009"
    324 50000 500000 (by norm_num) (by norm_num) (by norm_num)
  exact h
